import Mathlib

/-!
Verification of the SysAid analytics backend (server.js).

The development shallowly embeds the token cache, the route-handler error
envelopes, and the pure aggregation helpers of the server into Lean.
JavaScript objects that matter only through their field names are modelled
as association lists from field name to a small JSON value type; JavaScript
truthiness of the fields the code tests is made explicit.
-/

/-- A small JSON-like value type, enough for the response bodies the
claims inspect. -/
inductive JsVal where
  | str : String → JsVal
  | bool : Bool → JsVal
  | int : Int → JsVal
deriving DecidableEq, Repr

/-- A JavaScript object, as the ordered list of its fields. -/
abbrev JsObj := List (String × JsVal)

/-- Truthiness of an optional string field: null/undefined and the empty
string are falsy, every other string is truthy. -/
def truthyStr : Option String → Bool
  | none => false
  | some s => s ≠ ""

/-- The module-level token cache: token and expiresAt both start as null
(line 53 of server.js). -/
structure TokenCache where
  token : Option String
  expiresAt : Option Int
deriving DecidableEq, Repr

/-- The body of a successful token response: response.data.token and
response.data.expiresIn. -/
structure TokenResponse where
  token : String
  expiresIn : Int
deriving DecidableEq, Repr

/-- An upstream failure as axios surfaces it: the error message and the
optional upstream response body (e.response?.data). -/
structure UpstreamError where
  message : String
  body : Option String
deriving DecidableEq, Repr

/-- The guard of getAccessToken, line 56: tokenCache.token is truthy and
Date.now() is strictly below tokenCache.expiresAt.  A null expiresAt
compares as 0 under JavaScript coercion. -/
def cacheHit (cache : TokenCache) (now : Int) : Bool :=
  truthyStr cache.token && decide (now < cache.expiresAt.getD 0)

/-- Shallow embedding of getAccessToken (lines 55-79).  The acquisition
request is passed in as its outcome: on a cache hit the outcome is never
consulted; on a miss, a failed await throws before any assignment, so the
cache is returned unchanged; on success both cache fields are overwritten
and the fresh token is returned. -/
def getAccessToken (cache : TokenCache) (now : Int)
    (fetch : Except UpstreamError TokenResponse) :
    Except UpstreamError String × TokenCache :=
  if cacheHit cache now then
    (Except.ok (cache.token.getD ""), cache)
  else
    match fetch with
    | Except.error e => (Except.error e, cache)
    | Except.ok r =>
        (Except.ok r.token,
         { token := some r.token,
           expiresAt := some (now + (r.expiresIn - 300) * 1000) })

/-- A service record, with the fields server.js consumes.  Numeric fields
that the code tests for truthiness or that may be absent are optional;
dueDate is the parse of the due-date string as epoch milliseconds, none
standing for an absent, empty or unparsable string. -/
structure ServiceRecord where
  status : Int
  priority : Option Int
  assignee : Option Nat
  requestUser : Option Nat
  insertTime : Option Int
  updateTime : Option Int
  dueDate : Option Int
deriving DecidableEq, Repr

/-- An agent or end-user directory: the lookup map from numeric id to
display name built at lines 145-153. -/
abbrev Directory := List (Nat × String)

/-- The truthiness test assigneeId && agentMap[assigneeId] (lines 190 and
239): the id must be present and nonzero and the looked-up name a
nonempty string; the result is the resolved display name. -/
def resolveName (dir : Directory) (idOpt : Option Nat) : Option String :=
  match idOpt with
  | none => none
  | some i =>
      if i = 0 then none
      else
        match dir.lookup i with
        | none => none
        | some s => if s = "" then none else some s

/-- One step of distribution[key] = (distribution[key] || 0) + 1 on a
JavaScript object, preserving key insertion order as Object.entries
does. -/
def bump (d : List (String × Nat)) (k : String) : List (String × Nat) :=
  match d with
  | [] => [(k, 1)]
  | (k₂, v) :: rest =>
      if k₂ = k then (k₂, v + 1) :: rest else (k₂, v) :: bump rest k

/-- A chart point as the distributions emit it: the object literal
with fields name and value (lines 199-202 and 224-227). -/
structure NameValue where
  name : String
  value : Nat
deriving DecidableEq, Repr

/-- A ranking point as the top-N helpers emit it: the object literal
with fields name and count (lines 247 and 265). -/
structure NameCount where
  name : String
  count : Nat
deriving DecidableEq, Repr

/-- Serialization of a distribution element: field names in literal
order. -/
def NameValue.toJs (p : NameValue) : JsObj :=
  [("name", JsVal.str p.name), ("value", JsVal.int p.value)]

/-- Serialization of a ranking element: field names in literal order. -/
def NameCount.toJs (p : NameCount) : JsObj :=
  [("name", JsVal.str p.name), ("count", JsVal.int p.count)]

/-- The comparator (a, b) => b.value - a.value of line 203, as the
nonstrict order a stable sort realizes: a may stay before b exactly when
the comparator is nonpositive. -/
def valueDesc (a b : NameValue) : Prop := b.value ≤ a.value

instance : DecidableRel valueDesc :=
  fun a b => inferInstanceAs (Decidable (b.value ≤ a.value))

instance : IsTotal NameValue valueDesc :=
  ⟨fun a b => Nat.le_total b.value a.value⟩

instance : IsTrans NameValue valueDesc :=
  ⟨fun _ _ _ h₁ h₂ => Nat.le_trans h₂ h₁⟩

/-- The comparator (a, b) => b.count - a.count of lines 248 and 266. -/
def countDesc (a b : NameCount) : Prop := b.count ≤ a.count

instance : DecidableRel countDesc :=
  fun a b => inferInstanceAs (Decidable (b.count ≤ a.count))

instance : IsTotal NameCount countDesc :=
  ⟨fun a b => Nat.le_total b.count a.count⟩

instance : IsTrans NameCount countDesc :=
  ⟨fun _ _ _ h₁ h₂ => Nat.le_trans h₂ h₁⟩

/-- The fixed rank of a priority label in the order object of line 229;
any other label gets 999 through the || fallback. -/
def priorityRank (s : String) : Nat :=
  if s = "Very High" then 1
  else if s = "High" then 2
  else if s = "Normal" then 3
  else if s = "Low" then 4
  else if s = "Very Low" then 5
  else 999

/-- The priority comparator of lines 228-231:
(order[a.name] || 999) - (order[b.name] || 999), ascending. -/
def rankAsc (a b : NameValue) : Prop := priorityRank a.name ≤ priorityRank b.name

instance : DecidableRel rankAsc :=
  fun a b => inferInstanceAs (Decidable (priorityRank a.name ≤ priorityRank b.name))

instance : IsTotal NameValue rankAsc :=
  ⟨fun a b => Nat.le_total (priorityRank a.name) (priorityRank b.name)⟩

instance : IsTrans NameValue rankAsc :=
  ⟨fun _ _ _ h₁ h₂ => Nat.le_trans h₁ h₂⟩

/-- The lookup priorityMap[record.priority] || 'Unknown' of lines 207-218:
codes 1-5 map to their labels, anything else (absent included) maps to
Unknown. -/
def priorityLabel (p : Option Int) : String :=
  match p with
  | none => "Unknown"
  | some n =>
      if n = 1 then "Very High"
      else if n = 2 then "High"
      else if n = 3 then "Normal"
      else if n = 4 then "Low"
      else if n = 5 then "Very Low"
      else "Unknown"

/-- The association list built by the assignee-distribution loop before
chart formatting (lines 184-195): Unassigned is the fallback bucket for
an assignee that does not resolve. -/
def assigneePairs (records : List ServiceRecord) (agentMap : Directory) :
    List (String × Nat) :=
  records.foldl
    (fun d r => bump d ((resolveName agentMap r.assignee).getD "Unassigned")) []

/-- The association list built by the priority-distribution loop
(lines 215-220). -/
def priorityPairs (records : List ServiceRecord) : List (String × Nat) :=
  records.foldl (fun d r => bump d (priorityLabel r.priority)) []

/-- The adminCounts object of lines 235-243: records whose assignee does
not resolve are skipped entirely. -/
def adminPairs (records : List ServiceRecord) (agentMap : Directory) :
    List (String × Nat) :=
  records.foldl
    (fun d r =>
      match resolveName agentMap r.assignee with
      | some s => bump d s
      | none => d) []

/-- The userCounts object of lines 253-261, keyed by requestUser against
the end-user directory. -/
def endUserPairs (records : List ServiceRecord) (endUserMap : Directory) :
    List (String × Nat) :=
  records.foldl
    (fun d r =>
      match resolveName endUserMap r.requestUser with
      | some s => bump d s
      | none => d) []

/-- processAssigneeDistribution (lines 183-204): count per resolved
assignee name with Unassigned as fallback, convert to name/value points,
sort descending by value with a stable sort. -/
def processAssigneeDistribution (records : List ServiceRecord)
    (agentMap : Directory) : List NameValue :=
  List.insertionSort valueDesc
    ((assigneePairs records agentMap).map (fun p => ⟨p.1, p.2⟩))

/-- processPriorityDistribution (lines 206-232): count per priority
label, convert to name/value points, sort by the fixed priority rank. -/
def processPriorityDistribution (records : List ServiceRecord) : List NameValue :=
  List.insertionSort rankAsc ((priorityPairs records).map (fun p => ⟨p.1, p.2⟩))

/-- processTopAdministrators (lines 234-250): count per resolved assignee
name, skipping records whose assignee does not resolve, convert to
name/count points, sort descending by count, keep the first four. -/
def processTopAdministrators (records : List ServiceRecord)
    (agentMap : Directory) : List NameCount :=
  (List.insertionSort countDesc
    ((adminPairs records agentMap).map (fun p => ⟨p.1, p.2⟩))).take 4

/-- processTopEndUsers (lines 252-268): as for administrators but keyed
by requestUser against the end-user directory, keeping the first five. -/
def processTopEndUsers (records : List ServiceRecord)
    (endUserMap : Directory) : List NameCount :=
  (List.insertionSort countDesc
    ((endUserPairs records endUserMap).map (fun p => ⟨p.1, p.2⟩))).take 5

/-- The count a distribution assigns to one bucket name (0 when the
bucket is absent). -/
def bucketCount (d : List (String × Nat)) (k : String) : Nat :=
  (d.lookup k).getD 0

/-- The overdue test of lines 414-416: dueDate truthy and its instant
strictly before now. -/
def isOverdue (now : Int) (r : ServiceRecord) : Bool :=
  match r.dueDate with
  | some d => decide (d < now)
  | none => false

/-- The aging test of lines 418-420: insertTime truthy (present and
nonzero) and strictly below now minus five days. -/
def isOpenLong (now : Int) (r : ServiceRecord) : Bool :=
  match r.insertTime with
  | some t => decide (t ≠ 0) && decide (t < now - 5 * 24 * 60 * 60 * 1000)
  | none => false

/-- The no-due-date test of line 422: !r.dueDate. -/
def hasNoDueDate (r : ServiceRecord) : Bool := r.dueDate.isNone

/-- The data object of the active-tickets endpoint. -/
structure ActiveTicketsData where
  totalActive : Nat
  overduePercent : ℚ
  openMoreThan5Days : ℚ
  noDueDate : ℚ
deriving DecidableEq, Repr

/-- The /api/tickets/active computation (lines 402-438): restrict to
non-closed records and compute the three percentages, each guarded to 0
when there is no active record. -/
def activeTickets (records : List ServiceRecord) (now : Int) : ActiveTicketsData :=
  let activeRecords := records.filter (fun r => decide (r.status ≠ 34))
  let overdue := (activeRecords.filter (isOverdue now)).length
  let openLong := (activeRecords.filter (isOpenLong now)).length
  let noDue := (activeRecords.filter hasNoDueDate).length
  { totalActive := activeRecords.length
    overduePercent :=
      if 0 < activeRecords.length then
        ((overdue : ℚ) / (activeRecords.length : ℚ)) * 100
      else 0
    openMoreThan5Days :=
      if 0 < activeRecords.length then
        ((openLong : ℚ) / (activeRecords.length : ℚ)) * 100
      else 0
    noDueDate :=
      if 0 < activeRecords.length then
        ((noDue : ℚ) / (activeRecords.length : ℚ)) * 100
      else 0 }

/-- The openMoreThan5Days fraction exactly as the claim words it, for
comparison with the code: the fraction of active records whose insertTime
is present and strictly below now minus five days, with no further
truthiness guard on insertTime. -/
def claimOpenMoreThan5Days (records : List ServiceRecord) (now : Int) : ℚ :=
  let activeRecords := records.filter (fun r => decide (r.status ≠ 34))
  let openLong := (activeRecords.filter (fun r =>
    match r.insertTime with
    | some t => decide (t < now - 5 * 24 * 60 * 60 * 1000)
    | none => false)).length
  if 0 < activeRecords.length then
    ((openLong : ℚ) / (activeRecords.length : ℚ)) * 100
  else 0

/-- The details field of an error body after JSON serialization: present
with the upstream response body when axios captured one, dropped when
e.response?.data is undefined. -/
def detailsField (body : Option String) : JsObj :=
  match body with
  | some b => [("details", JsVal.str b)]
  | none => []

/-- The catch-block body shared by the data endpoints:
success false, error message, details from the upstream body. -/
def standardErrorBody (e : UpstreamError) : JsObj :=
  [("success", JsVal.bool false), ("error", JsVal.str e.message)]
    ++ detailsField e.body

/-- The catch block of /api/analytics/overview (lines 169-176). -/
def analyticsCatch (e : UpstreamError) : Nat × JsObj := (500, standardErrorBody e)

/-- The catch block of /api/tickets (lines 282-288). -/
def ticketsCatch (e : UpstreamError) : Nat × JsObj := (500, standardErrorBody e)

/-- The catch block of /api/tickets/:id/action-items (lines 305-311). -/
def actionItemsCatch (e : UpstreamError) : Nat × JsObj := (500, standardErrorBody e)

/-- The catch block of /api/metrics/weekly (lines 388-396). -/
def weeklyCatch (e : UpstreamError) : Nat × JsObj := (500, standardErrorBody e)

/-- The catch block of /api/tickets/active (lines 439-446). -/
def activeCatch (e : UpstreamError) : Nat × JsObj := (500, standardErrorBody e)

/-- The catch block of the /api/connect/* passthrough (lines 457-459):
only success and error, no details field. -/
def connectCatch (e : UpstreamError) : Nat × JsObj :=
  (500, [("success", JsVal.bool false), ("error", JsVal.str e.message)])

/-- The uniform error envelope the spec requires of a handler response:
status 500, success false, the failure message, and the upstream body
under details whenever one is present. -/
def errorEnvelopeWithDetails (resp : Nat × JsObj) (e : UpstreamError) : Prop :=
  resp.1 = 500
    ∧ resp.2.lookup "success" = some (JsVal.bool false)
    ∧ resp.2.lookup "error" = some (JsVal.str e.message)
    ∧ ∀ b, e.body = some b → resp.2.lookup "details" = some (JsVal.str b)

/-- The /api/health body (lines 117-122): a constant status and the
double-negated truthiness of the cached token, with no look at
expiresAt. -/
def healthBody (cache : TokenCache) : JsObj :=
  [("status", JsVal.str "ok"), ("tokenCached", JsVal.bool (truthyStr cache.token))]

/-- Claim C1: if a token string is stored in the cache and the current
time is strictly before its expiresAt, getAccessToken returns the stored
token and the unchanged cache, for every possible outcome of the
acquisition request - so no second acquisition is consulted within the
validity window. -/
theorem getAccessToken_hit (cache : TokenCache) (now : Int) (s : String)
    (e : Int) (hs : cache.token = some s) (hne : s ≠ "")
    (he : cache.expiresAt = some e) (hlt : now < e) :
    ∀ fetch : Except UpstreamError TokenResponse,
      getAccessToken cache now fetch = (Except.ok s, cache) := by
  intro fetch
  have hhit : cacheHit cache now = true := by
    simp [cacheHit, truthyStr, hs, he, hne, hlt]
  simp [getAccessToken, hhit, hs]

/-- Witness for C1 at a concrete cache state. -/
theorem getAccessToken_hit_witness :
    getAccessToken ⟨some "tok", some 1000⟩ 500 (Except.error ⟨"down", none⟩)
      = (Except.ok "tok", ⟨some "tok", some 1000⟩) :=
  getAccessToken_hit ⟨some "tok", some 1000⟩ 500 "tok" 1000 rfl
    (by decide) rfl (by decide) (Except.error ⟨"down", none⟩)

/-- Claim C2: on a cache miss, a successful acquisition at time now with
reported lifetime expiresIn seconds stores expiry instant
now + (expiresIn - 300) * 1000 milliseconds exactly; from that instant on
the cache no longer hits, and strictly before it (for a truthy token) it
always hits. -/
theorem getAccessToken_expiry (cache : TokenCache) (now : Int)
    (r : TokenResponse) (hmiss : cacheHit cache now = false) :
    (getAccessToken cache now (Except.ok r)).2.expiresAt
        = some (now + (r.expiresIn - 300) * 1000)
      ∧ (getAccessToken cache now (Except.ok r)).1 = Except.ok r.token
      ∧ (∀ later : Int, now + (r.expiresIn - 300) * 1000 ≤ later →
          cacheHit (getAccessToken cache now (Except.ok r)).2 later = false)
      ∧ (r.token ≠ "" → ∀ later : Int,
          later < now + (r.expiresIn - 300) * 1000 →
          cacheHit (getAccessToken cache now (Except.ok r)).2 later = true) := by
  refine ⟨?_, ?_, ?_, ?_⟩
  · simp [getAccessToken, hmiss]
  · simp [getAccessToken, hmiss]
  · intro later hle
    simp only [getAccessToken, hmiss, Bool.false_eq_true, if_false]
    simp [cacheHit, truthyStr]
    omega
  · intro hne later hlt
    simp only [getAccessToken, hmiss, Bool.false_eq_true, if_false]
    simp [cacheHit, truthyStr, hne]
    omega

/-- Witness for C2: an empty cache at time 0 with lifetime 900 seconds
gets expiry instant 600000 milliseconds. -/
theorem getAccessToken_expiry_witness :
    (getAccessToken ⟨none, none⟩ 0 (Except.ok ⟨"tok", 900⟩)).2.expiresAt
      = some 600000 :=
  (getAccessToken_expiry ⟨none, none⟩ 0 ⟨"tok", 900⟩ (by decide)).1

/-- Claim C3: on a cache miss, a failed acquisition propagates the very
same error to the caller and leaves the cache exactly as it was - no
field is written and no retry happens. -/
theorem getAccessToken_failure (cache : TokenCache) (now : Int)
    (e : UpstreamError) (hmiss : cacheHit cache now = false) :
    getAccessToken cache now (Except.error e) = (Except.error e, cache) := by
  simp [getAccessToken, hmiss]

/-- Witness for C3 at a concrete expired cache state. -/
theorem getAccessToken_failure_witness :
    getAccessToken ⟨some "old", some 100⟩ 200 (Except.error ⟨"boom", some "b"⟩)
      = (Except.error ⟨"boom", some "b"⟩, ⟨some "old", some 100⟩) :=
  getAccessToken_failure ⟨some "old", some 100⟩ 200 ⟨"boom", some "b"⟩
    (by decide)

/-! ### Helper lemmas about the counting object -/

theorem lookup_bump_self (d : List (String × Nat)) (k : String) :
    (bump d k).lookup k = some ((d.lookup k).getD 0 + 1) := by
  induction d with
  | nil => simp [bump, List.lookup]
  | cons p rest ih =>
      obtain ⟨k₂, v⟩ := p
      by_cases h : k₂ = k
      · subst h
        simp [bump, List.lookup]
      · have hbeq : (k == k₂) = false := by
          simp [beq_iff_eq]
          exact fun hk => h hk.symm
        simp [bump, h, List.lookup, hbeq, ih]

theorem sum_bump (d : List (String × Nat)) (k : String) :
    ((bump d k).map Prod.snd).sum = (d.map Prod.snd).sum + 1 := by
  induction d with
  | nil => simp [bump]
  | cons p rest ih =>
      obtain ⟨k₂, v⟩ := p
      by_cases h : k₂ = k
      · subst h
        simp [bump]
        omega
      · simp [bump, h, ih]
        omega

theorem sum_foldl_bump (f : ServiceRecord → String) (records : List ServiceRecord)
    (d : List (String × Nat)) :
    ((records.foldl (fun d r => bump d (f r)) d).map Prod.snd).sum
      = (d.map Prod.snd).sum + records.length := by
  induction records generalizing d with
  | nil => simp
  | cons r rs ih =>
      simp only [List.foldl_cons, List.length_cons, ih, sum_bump]
      omega

theorem bump_pos (d : List (String × Nat)) (k : String)
    (h : ∀ p ∈ d, 1 ≤ p.2) : ∀ p ∈ bump d k, 1 ≤ p.2 := by
  induction d with
  | nil =>
      intro p hp
      simp [bump] at hp
      simp [hp]
  | cons q rest ih =>
      obtain ⟨k₂, v⟩ := q
      intro p hp
      by_cases hk : k₂ = k
      · subst hk
        simp [bump] at hp
        rcases hp with hp | hp
        · simp [hp]
        · exact h p (List.mem_cons_of_mem _ hp)
      · simp only [bump, if_neg hk, List.mem_cons] at hp
        rcases hp with hp | hp
        · exact hp ▸ h ⟨k₂, v⟩ (List.mem_cons_self _ _)
        · exact ih (fun q hq => h q (List.mem_cons_of_mem _ hq)) p hp

theorem foldl_bump_pos (f : ServiceRecord → String) (records : List ServiceRecord)
    (d : List (String × Nat)) (h : ∀ p ∈ d, 1 ≤ p.2) :
    ∀ p ∈ records.foldl (fun d r => bump d (f r)) d, 1 ≤ p.2 := by
  induction records generalizing d with
  | nil => exact h
  | cons r rs ih => exact ih (bump d (f r)) (bump_pos d (f r) h)

/-! ### Claim C8 -/

/-- Claim C8: the values of the assignee distribution sum to the number
of input records - every record lands in exactly one bucket, and the
chart formatting and sort preserve the total. -/
theorem assigneeDistribution_total (records : List ServiceRecord)
    (agentMap : Directory) :
    ((processAssigneeDistribution records agentMap).map NameValue.value).sum
      = records.length := by
  have hperm := List.perm_insertionSort valueDesc
    ((assigneePairs records agentMap).map (fun p => (⟨p.1, p.2⟩ : NameValue)))
  have hsum := (hperm.map NameValue.value).sum_eq
  unfold processAssigneeDistribution
  rw [hsum, List.map_map]
  have h := sum_foldl_bump
    (fun r => (resolveName agentMap r.assignee).getD "Unassigned") records []
  simpa [assigneePairs] using h

/-! ### Claim C7 -/

/-- Claim C7: a record whose assignee is absent or does not resolve in
the agent directory adds one to the Unassigned bucket of the assignee
distribution and leaves the top-administrators ranking unchanged. -/
theorem unresolved_assignee (records : List ServiceRecord) (agentMap : Directory)
    (r : ServiceRecord)
    (h : r.assignee = none ∨ ∃ i, r.assignee = some i ∧ agentMap.lookup i = none) :
    bucketCount (assigneePairs (records ++ [r]) agentMap) "Unassigned"
        = bucketCount (assigneePairs records agentMap) "Unassigned" + 1
      ∧ processTopAdministrators (records ++ [r]) agentMap
        = processTopAdministrators records agentMap := by
  have hres : resolveName agentMap r.assignee = none := by
    rcases h with h | ⟨i, hi, hlook⟩
    · simp [resolveName, h]
    · by_cases hz : i = 0
      · simp [resolveName, hi, hz]
      · simp [resolveName, hi, hz, hlook]
  constructor
  · unfold assigneePairs bucketCount
    rw [List.foldl_append]
    simp only [List.foldl_cons, List.foldl_nil, hres, Option.getD_none]
    rw [lookup_bump_self]
    simp
  · unfold processTopAdministrators adminPairs
    rw [List.foldl_append]
    simp [hres]

/-- Witness for C7: a single unassigned record yields Unassigned count 1
and an empty ranking. -/
theorem unresolved_assignee_witness :
    bucketCount (assigneePairs [⟨1, none, none, none, none, none, none⟩] [])
        "Unassigned" = 1
      ∧ processTopAdministrators [⟨1, none, none, none, none, none, none⟩] []
        = [] := by
  have h := unresolved_assignee [] [] ⟨1, none, none, none, none, none, none⟩
    (Or.inl rfl)
  simpa [assigneePairs, bucketCount, processTopAdministrators] using h

/-! ### Claim C5 -/

/-- Counterexample to claim C5 as stated: with one resolvable record the
top-administrators ranking has an element whose serialized field names
are name and count, not name and value. -/
theorem topAdministrators_not_value_shape :
    ¬ ∀ x ∈ processTopAdministrators
        [⟨1, none, some 1, none, none, none, none⟩] [(1, "Alice")],
      (NameCount.toJs x).map Prod.fst = ["name", "value"] := by
  decide

/-- Claim C5 amended: the top-N rankings are sorted descending by count
and truncated (four administrators, five end users) like the
distributions, but their elements serialize with field names name and
count, while distribution elements serialize with name and value. -/
theorem topRankings_shape (records : List ServiceRecord)
    (agentMap endUserMap : Directory) :
    (∀ x ∈ processTopAdministrators records agentMap,
        (NameCount.toJs x).map Prod.fst = ["name", "count"])
    ∧ List.Pairwise countDesc (processTopAdministrators records agentMap)
    ∧ (processTopAdministrators records agentMap).length ≤ 4
    ∧ (∀ x ∈ processTopEndUsers records endUserMap,
        (NameCount.toJs x).map Prod.fst = ["name", "count"])
    ∧ List.Pairwise countDesc (processTopEndUsers records endUserMap)
    ∧ (processTopEndUsers records endUserMap).length ≤ 5
    ∧ (∀ x ∈ processAssigneeDistribution records agentMap,
        (NameValue.toJs x).map Prod.fst = ["name", "value"])
    ∧ List.Pairwise valueDesc (processAssigneeDistribution records agentMap) := by
  refine ⟨fun x _ => rfl, ?_, ?_, fun x _ => rfl, ?_, ?_, fun x _ => rfl, ?_⟩
  · exact List.Pairwise.sublist (List.take_sublist _ _)
      (List.sorted_insertionSort countDesc _)
  · simp [processTopAdministrators]
  · exact List.Pairwise.sublist (List.take_sublist _ _)
      (List.sorted_insertionSort countDesc _)
  · simp [processTopEndUsers]
  · exact List.sorted_insertionSort valueDesc _

/-- Witness for C5 at a concrete record list. -/
theorem topRankings_shape_witness :
    (NameCount.toJs ⟨"Alice", 1⟩).map Prod.fst = ["name", "count"] :=
  (topRankings_shape [⟨1, none, some 1, none, none, none, none⟩]
    [(1, "Alice")] []).1 ⟨"Alice", 1⟩ (by decide)

/-! ### Claim C6 -/

/-- Claim C6: on records with priorities 2, 1, 3, 5 the priority
distribution is exactly Very High, High, Normal, Very Low, each with
count 1; in general the output is ordered by the fixed priority rank,
every listed category has a positive count (absent categories are
omitted), and any priority outside 1-5 or missing gets label Unknown. -/
theorem priorityDistribution_props :
    processPriorityDistribution
        [⟨1, some 2, none, none, none, none, none⟩,
         ⟨1, some 1, none, none, none, none, none⟩,
         ⟨1, some 3, none, none, none, none, none⟩,
         ⟨1, some 5, none, none, none, none, none⟩]
      = [⟨"Very High", 1⟩, ⟨"High", 1⟩, ⟨"Normal", 1⟩, ⟨"Very Low", 1⟩]
    ∧ (∀ records, List.Pairwise rankAsc (processPriorityDistribution records))
    ∧ (∀ records, ∀ x ∈ processPriorityDistribution records, 1 ≤ x.value)
    ∧ (∀ n : Int, n < 1 ∨ 5 < n → priorityLabel (some n) = "Unknown")
    ∧ priorityLabel none = "Unknown" := by
  refine ⟨by decide, ?_, ?_, ?_, rfl⟩
  · intro records
    exact List.sorted_insertionSort rankAsc _
  · intro records x hx
    unfold processPriorityDistribution at hx
    rw [List.mem_insertionSort] at hx
    obtain ⟨p, hp, rfl⟩ := List.mem_map.mp hx
    exact foldl_bump_pos (fun r => priorityLabel r.priority) records []
      (by simp) p hp
  · intro n hn
    show (if n = 1 then "Very High"
      else if n = 2 then "High"
      else if n = 3 then "Normal"
      else if n = 4 then "Low"
      else if n = 5 then "Very Low"
      else "Unknown") = "Unknown"
    split_ifs with h₁ h₂ h₃ h₄ h₅ <;> first | rfl | (exfalso; omega)

/-- Witness for C6: priority 7 is outside 1-5 and labels as Unknown. -/
theorem priorityDistribution_props_witness :
    priorityLabel (some 7) = "Unknown" :=
  priorityDistribution_props.2.2.2.1 7 (Or.inr (by decide))

/-! ### Claim C9 -/

/-- Counterexample to claim C9 as stated: one active record with
insertTime 0 at a now of ten days is excluded by the truthiness guard on
insertTime, so the code reports an aging percentage of 0 while the
fraction the claim describes is 100. -/
theorem activeTickets_insertTime_cex :
    (activeTickets [⟨1, none, none, none, some 0, none, none⟩]
        864000000).openMoreThan5Days = 0
      ∧ claimOpenMoreThan5Days [⟨1, none, none, none, some 0, none, none⟩]
          864000000 = 100
      ∧ (0 : ℚ) ≠ 100 := by
  refine ⟨?_, ?_, by norm_num⟩
  · norm_num [activeTickets, isOpenLong, isOverdue, hasNoDueDate]
  · norm_num [claimOpenMoreThan5Days]

/-- Claim C9 amended: over the non-closed records the three percentages
are count over active count times 100 with the code's predicates -
dueDate present and in the past for overdue, insertTime present and
nonzero and below now minus five days for aging, dueDate absent for
noDueDate - and all three are exactly 0 when there is no active
record. -/
theorem activeTickets_spec (records : List ServiceRecord) (now : Int) :
    (activeTickets records now).totalActive
        = (records.filter (fun r => decide (r.status ≠ 34))).length
    ∧ ((records.filter (fun r => decide (r.status ≠ 34))).length = 0 →
        (activeTickets records now).overduePercent = 0
        ∧ (activeTickets records now).openMoreThan5Days = 0
        ∧ (activeTickets records now).noDueDate = 0)
    ∧ (0 < (records.filter (fun r => decide (r.status ≠ 34))).length →
        (activeTickets records now).overduePercent
          = ((((records.filter (fun r => decide (r.status ≠ 34))).filter
                (isOverdue now)).length : ℚ)
              / ((records.filter (fun r => decide (r.status ≠ 34))).length : ℚ))
            * 100
        ∧ (activeTickets records now).openMoreThan5Days
          = ((((records.filter (fun r => decide (r.status ≠ 34))).filter
                (isOpenLong now)).length : ℚ)
              / ((records.filter (fun r => decide (r.status ≠ 34))).length : ℚ))
            * 100
        ∧ (activeTickets records now).noDueDate
          = ((((records.filter (fun r => decide (r.status ≠ 34))).filter
                hasNoDueDate).length : ℚ)
              / ((records.filter (fun r => decide (r.status ≠ 34))).length : ℚ))
            * 100)
    ∧ (∀ r : ServiceRecord,
        isOverdue now r = true ↔ ∃ d, r.dueDate = some d ∧ d < now)
    ∧ (∀ r : ServiceRecord,
        isOpenLong now r = true
          ↔ ∃ t, r.insertTime = some t ∧ t ≠ 0
              ∧ t < now - 5 * 24 * 60 * 60 * 1000)
    ∧ (∀ r : ServiceRecord, hasNoDueDate r = true ↔ r.dueDate = none) := by
  refine ⟨rfl, fun h => ?_, fun h => ?_, ?_, ?_, ?_⟩
  · have hcond :
        ¬ 0 < (records.filter (fun r => decide (r.status ≠ 34))).length := by
      omega
    refine ⟨?_, ?_, ?_⟩ <;>
      · simp only [activeTickets]
        rw [if_neg hcond]
  · refine ⟨?_, ?_, ?_⟩ <;>
      · simp only [activeTickets]
        rw [if_pos h]
  · intro r
    cases hd : r.dueDate <;> simp [isOverdue, hd]
  · intro r
    cases ht : r.insertTime <;> simp [isOpenLong, ht, and_assoc]
  · intro r
    cases hd : r.dueDate <;> simp [hasNoDueDate, hd]

/-- Witness for C9: the empty record set gives overdue percentage 0, and
one overdue active record gives 100. -/
theorem activeTickets_spec_witness :
    (activeTickets [] 0).overduePercent = 0
      ∧ (activeTickets [⟨1, none, none, none, none, none, some 5⟩]
          10).overduePercent = 100 := by
  constructor
  · exact ((activeTickets_spec [] 0).2.1 rfl).1
  · have h := ((activeTickets_spec [⟨1, none, none, none, none, none, some 5⟩]
      10).2.2.1 (by decide)).1
    norm_num [isOverdue] at h
    exact h

/-! ### Claim C10 -/

/-- Claim C10: the health endpoint reports tokenCached true exactly when
a truthy token string is stored, and the report does not depend on
expiresAt at all - an expired but stored token still reports true. -/
theorem health_tokenCached (cache : TokenCache) :
    ((healthBody cache).lookup "tokenCached" = some (JsVal.bool true)
        ↔ ∃ s, cache.token = some s ∧ s ≠ "")
    ∧ ∀ e : Option Int, healthBody ⟨cache.token, e⟩ = healthBody cache := by
  constructor
  · cases ht : cache.token with
    | none => simp [healthBody, List.lookup, truthyStr, ht]
    | some s =>
        by_cases hs : s = "" <;>
          simp [healthBody, List.lookup, truthyStr, ht, hs]
  · intro e
    rfl

/-- Witness for C10: a token stored with an already-passed expiry still
reports tokenCached true. -/
theorem health_tokenCached_witness :
    (healthBody ⟨some "tok", some 0⟩).lookup "tokenCached"
      = some (JsVal.bool true) :=
  (health_tokenCached ⟨some "tok", some 0⟩).1.mpr ⟨"tok", rfl, by decide⟩

/-! ### Claim C4 -/

/-- Counterexample to claim C4 as stated: the connect passthrough catch
block omits the details field even when an upstream body is present. -/
theorem connect_missing_details :
    ¬ errorEnvelopeWithDetails (connectCatch ⟨"fail", some "upstream"⟩)
        ⟨"fail", some "upstream"⟩ := by
  intro h
  have hd := h.2.2.2 "upstream" rfl
  simp [connectCatch, List.lookup] at hd

/-- Claim C4 amended: every data handler responds to a failure with
status 500 and a body carrying success false, the failure message, and
the upstream body under details when one is present; the connect
passthrough also responds 500 with success false and the message but
never carries a details field. -/
theorem handler_error_envelopes (e : UpstreamError) :
    errorEnvelopeWithDetails (analyticsCatch e) e
    ∧ errorEnvelopeWithDetails (ticketsCatch e) e
    ∧ errorEnvelopeWithDetails (actionItemsCatch e) e
    ∧ errorEnvelopeWithDetails (weeklyCatch e) e
    ∧ errorEnvelopeWithDetails (activeCatch e) e
    ∧ (connectCatch e).1 = 500
    ∧ (connectCatch e).2.lookup "success" = some (JsVal.bool false)
    ∧ (connectCatch e).2.lookup "error" = some (JsVal.str e.message)
    ∧ (connectCatch e).2.lookup "details" = none := by
  have hstd : ∀ resp : Nat × JsObj, resp = (500, standardErrorBody e) →
      errorEnvelopeWithDetails resp e := by
    rintro _ rfl
    refine ⟨rfl, ?_, ?_, ?_⟩
    · simp [standardErrorBody, List.lookup]
    · simp [standardErrorBody, List.lookup]
    · intro b hb
      simp [standardErrorBody, detailsField, hb, List.lookup]
  refine ⟨hstd _ rfl, hstd _ rfl, hstd _ rfl, hstd _ rfl, hstd _ rfl,
    rfl, ?_, ?_, ?_⟩
  · simp [connectCatch, List.lookup]
  · simp [connectCatch, List.lookup]
  · simp [connectCatch, List.lookup]

/-- Witness for C4: a concrete failure with an upstream body lands the
body under details in the analytics handler response. -/
theorem handler_error_envelopes_witness :
    (analyticsCatch ⟨"fail", some "upstream"⟩).2.lookup "details"
      = some (JsVal.str "upstream") :=
  (handler_error_envelopes ⟨"fail", some "upstream"⟩).1.2.2.2 "upstream" rfl
